import Mathlib

/-
Verification of the MAP super-resolution solver setup layer
(src/optimization/map_solver.cpp).

Machine doubles are modelled as exact rationals (ℚ); C++ `int` as ℤ or ℕ
with explicit bounds where overflow matters.  Fatal CHECK failures are
modelled by `Option`-valued operations returning `none`.
-/

namespace SuperResolution

/-- Modelled from the spec: the pixel-buffer type (`ImageData`, whose
implementation is outside the given source).  It exposes a channel count,
a (width, height) size, and per-channel pixel values. -/
structure ImageData where
  width : Nat
  height : Nat
  numChannels : Nat
  pixel : Nat → Nat → Nat → ℚ

/-- Modelled from the spec: the forward image-formation model (`ImageModel`,
outside the given source) exposes an integer upsampling/downsampling scale
factor. -/
structure ImageModel where
  downsamplingScale : Nat

def ImageModel.GetDownsamplingScale (m : ImageModel) : Nat :=
  m.downsamplingScale

/-- Modelled from the spec: `ImageData::ResizeImage` with
`INTERPOLATE_NEAREST` (implementation outside the given source): resample
onto the target size by nearest-neighbor interpolation, so every output
pixel is an exact copy of some source pixel (no blending). -/
def ImageData.ResizeImage (img : ImageData) (newSize : Nat × Nat) : ImageData :=
  { width := newSize.1
    height := newSize.2
    numChannels := img.numChannels
    pixel := fun c x y =>
      img.pixel c (x * img.width / newSize.1) (y * img.height / newSize.2) }

/-- Modelled from the spec: a regularization capability (`Regularizer`,
outside the given source).  The solver setup layer treats it opaquely, so
it is represented by an identifier. -/
structure Regularizer where
  id : Nat

inductive LeastSquaresSolver where
  | CONJUGATE_GRADIENT_SOLVER
  | LBFGS_SOLVER
deriving DecidableEq

/-- Solver configuration (`MapSolverOptions`).  The non-threshold fields
(`verbose` is modelled from the spec; the header is outside the given
source) are carried to state the frame property of the adaptive scaling. -/
structure MapSolverOptions where
  least_squares_solver : LeastSquaresSolver
  use_numerical_differentiation : Bool
  numerical_differentiation_step : ℚ
  split_channels : Bool
  verbose : Bool
  gradient_norm_threshold : ℚ
  cost_decrease_threshold : ℚ
  parameter_variation_threshold : ℚ

/-- `MapSolverOptions::AdjustThresholdsAdaptively`: scale the three
convergence thresholds by `num_parameters * regularization_parameter_sum`,
unless that scale is below 1, in which case nothing changes. -/
def MapSolverOptions.AdjustThresholdsAdaptively (opts : MapSolverOptions)
    (num_parameters : ℤ) (regularization_parameter_sum : ℚ) :
    MapSolverOptions :=
  let threshold_scale : ℚ := (num_parameters : ℚ) * regularization_parameter_sum
  if threshold_scale < 1 then
    opts
  else
    { opts with
      gradient_norm_threshold := opts.gradient_norm_threshold * threshold_scale
      cost_decrease_threshold := opts.cost_decrease_threshold * threshold_scale
      parameter_variation_threshold :=
        opts.parameter_variation_threshold * threshold_scale }

/-- Solver state assembled by the `MapSolver` constructor (fields
`num_channels_`, `image_size_`, `observations_`, `regularizers_`). -/
structure MapSolver where
  numChannels : Nat
  imageSize : Nat × Nat
  observations : List ImageData
  regularizers : List (Regularizer × ℚ)

/-- `MapSolver::MapSolver`: fails (fatally, modelled as `none`) on an empty
image list or mismatched channel counts; otherwise derives the
high-resolution size from the first image and the model scale, and
resamples every input onto it with nearest-neighbor interpolation. -/
def MapSolver.construct (imageModel : ImageModel)
    (lowResImages : List ImageData) : Option MapSolver :=
  match lowResImages with
  | [] => none
  | first :: rest =>
      if rest.all (fun img => img.numChannels == first.numChannels) then
        let upsamplingScale := imageModel.GetDownsamplingScale
        let imageSize : Nat × Nat :=
          (first.width * upsamplingScale, first.height * upsamplingScale)
        some
          { numChannels := first.numChannels
            imageSize := imageSize
            observations :=
              (first :: rest).map (fun img => img.ResizeImage imageSize)
            regularizers := [] }
      else
        none

/-- `MapSolver::AddRegularizer`: append the (term, weight) pair. -/
def MapSolver.AddRegularizer (s : MapSolver) (regularizer : Regularizer)
    (regularization_parameter : ℚ) : MapSolver :=
  { s with
    regularizers := s.regularizers ++ [(regularizer, regularization_parameter)] }

/-- Modelled from the spec: `Solver::GetNumPixels` (declared in a header
outside the given source): the pixel count of the high-resolution size. -/
def MapSolver.GetNumPixels (s : MapSolver) : Nat :=
  s.imageSize.1 * s.imageSize.2

/-- Modelled from the spec: `Solver::GetNumChannels` (declared in a header
outside the given source): the channel count fixed at construction. -/
def MapSolver.GetNumChannels (s : MapSolver) : Nat :=
  s.numChannels

/-- Maximum representable signed 32-bit integer
(`std::numeric_limits<int>::max()`). -/
def INT32_MAX : Nat := 2 ^ 31 - 1

/-- `MapSolver::GetNumDataPoints`: pixel count times channel count, with a
fatal CHECK (modelled as `none`) when the product exceeds `INT32_MAX`. -/
def MapSolver.GetNumDataPoints (s : MapSolver) : Option Nat :=
  let num_data_points := s.GetNumPixels * s.GetNumChannels
  if num_data_points ≤ INT32_MAX then some num_data_points else none

/-- `MapSolver::GetRegularizationParameterSum`: fold the registered weights
with `+` starting from 0. -/
def MapSolver.GetRegularizationParameterSum (s : MapSolver) : ℚ :=
  s.regularizers.foldl (fun acc p => acc + p.2) 0

/- ------------------------------------------------------------------ -/
/- Helper lemmas                                                      -/
/- ------------------------------------------------------------------ -/

theorem foldl_add_snd (l : List (Regularizer × ℚ)) (a : ℚ) :
    l.foldl (fun acc p => acc + p.2) a = a + (l.map Prod.snd).sum := by
  induction l generalizing a with
  | nil => simp
  | cons p t ih => simp [ih, add_assoc]

/- ------------------------------------------------------------------ -/
/- Claims                                                             -/
/- ------------------------------------------------------------------ -/

/-- C2: for `numParameters ≥ 0`, `regularizationWeightSum ≥ 0` with
`numParameters × regularizationWeightSum ≥ 1`, each of the three thresholds
after `AdjustThresholdsAdaptively` equals its prior value times
`numParameters × regularizationWeightSum`, exactly. -/
theorem adjustThresholdsAdaptively_scales (opts : MapSolverOptions)
    (n : ℤ) (w : ℚ) (_hn : 0 ≤ n) (_hw : 0 ≤ w) (h1 : 1 ≤ (n : ℚ) * w) :
    (opts.AdjustThresholdsAdaptively n w).gradient_norm_threshold
        = opts.gradient_norm_threshold * ((n : ℚ) * w) ∧
    (opts.AdjustThresholdsAdaptively n w).cost_decrease_threshold
        = opts.cost_decrease_threshold * ((n : ℚ) * w) ∧
    (opts.AdjustThresholdsAdaptively n w).parameter_variation_threshold
        = opts.parameter_variation_threshold * ((n : ℚ) * w) := by
  unfold MapSolverOptions.AdjustThresholdsAdaptively
  rw [if_neg (not_lt.mpr h1)]
  exact ⟨rfl, rfl, rfl⟩

/-- C2 witness: thresholds (1, 2, 3) with `n = 2`, `w = 3` become
(6, 12, 18). -/
theorem adjustThresholdsAdaptively_scales_witness :
    ({ least_squares_solver := .CONJUGATE_GRADIENT_SOLVER
       use_numerical_differentiation := false
       numerical_differentiation_step := 0
       split_channels := false
       verbose := false
       gradient_norm_threshold := 1
       cost_decrease_threshold := 2
       parameter_variation_threshold := 3 :
         MapSolverOptions }.AdjustThresholdsAdaptively 2 3).gradient_norm_threshold
        = 1 * (((2 : ℤ) : ℚ) * 3) ∧
    ({ least_squares_solver := .CONJUGATE_GRADIENT_SOLVER
       use_numerical_differentiation := false
       numerical_differentiation_step := 0
       split_channels := false
       verbose := false
       gradient_norm_threshold := 1
       cost_decrease_threshold := 2
       parameter_variation_threshold := 3 :
         MapSolverOptions }.AdjustThresholdsAdaptively 2 3).cost_decrease_threshold
        = 2 * (((2 : ℤ) : ℚ) * 3) ∧
    ({ least_squares_solver := .CONJUGATE_GRADIENT_SOLVER
       use_numerical_differentiation := false
       numerical_differentiation_step := 0
       split_channels := false
       verbose := false
       gradient_norm_threshold := 1
       cost_decrease_threshold := 2
       parameter_variation_threshold := 3 :
         MapSolverOptions }.AdjustThresholdsAdaptively 2 3).parameter_variation_threshold
        = 3 * (((2 : ℤ) : ℚ) * 3) :=
  adjustThresholdsAdaptively_scales _ 2 3 (by norm_num) (by norm_num) (by norm_num)

/-- C3: for `numParameters ≥ 0`, `regularizationWeightSum ≥ 0` with
`numParameters × regularizationWeightSum < 1`, `AdjustThresholdsAdaptively`
leaves all three thresholds unchanged. -/
theorem adjustThresholdsAdaptively_small_scale_id (opts : MapSolverOptions)
    (n : ℤ) (w : ℚ) (_hn : 0 ≤ n) (_hw : 0 ≤ w) (h1 : (n : ℚ) * w < 1) :
    (opts.AdjustThresholdsAdaptively n w).gradient_norm_threshold
        = opts.gradient_norm_threshold ∧
    (opts.AdjustThresholdsAdaptively n w).cost_decrease_threshold
        = opts.cost_decrease_threshold ∧
    (opts.AdjustThresholdsAdaptively n w).parameter_variation_threshold
        = opts.parameter_variation_threshold := by
  unfold MapSolverOptions.AdjustThresholdsAdaptively
  rw [if_pos h1]
  exact ⟨rfl, rfl, rfl⟩

/-- C3 witness: thresholds (1, 2, 3) with `n = 1`, `w = 1/2` are kept. -/
theorem adjustThresholdsAdaptively_small_scale_id_witness :
    ({ least_squares_solver := .CONJUGATE_GRADIENT_SOLVER
       use_numerical_differentiation := false
       numerical_differentiation_step := 0
       split_channels := false
       verbose := false
       gradient_norm_threshold := 1
       cost_decrease_threshold := 2
       parameter_variation_threshold := 3 :
         MapSolverOptions }.AdjustThresholdsAdaptively 1 (1 / 2)).gradient_norm_threshold
        = 1 ∧
    ({ least_squares_solver := .CONJUGATE_GRADIENT_SOLVER
       use_numerical_differentiation := false
       numerical_differentiation_step := 0
       split_channels := false
       verbose := false
       gradient_norm_threshold := 1
       cost_decrease_threshold := 2
       parameter_variation_threshold := 3 :
         MapSolverOptions }.AdjustThresholdsAdaptively 1 (1 / 2)).cost_decrease_threshold
        = 2 ∧
    ({ least_squares_solver := .CONJUGATE_GRADIENT_SOLVER
       use_numerical_differentiation := false
       numerical_differentiation_step := 0
       split_channels := false
       verbose := false
       gradient_norm_threshold := 1
       cost_decrease_threshold := 2
       parameter_variation_threshold := 3 :
         MapSolverOptions }.AdjustThresholdsAdaptively 1 (1 / 2)).parameter_variation_threshold
        = 3 :=
  adjustThresholdsAdaptively_small_scale_id _ 1 (1 / 2)
    (by norm_num) (by norm_num) (by norm_num)

/-- C8: with positive thresholds and nonnegative inputs, no threshold is
smaller after `AdjustThresholdsAdaptively` than before it. -/
theorem adjustThresholdsAdaptively_never_shrinks (opts : MapSolverOptions)
    (n : ℤ) (w : ℚ)
    (hg : 0 < opts.gradient_norm_threshold)
    (hc : 0 < opts.cost_decrease_threshold)
    (hp : 0 < opts.parameter_variation_threshold)
    (_hn : 0 ≤ n) (_hw : 0 ≤ w) :
    opts.gradient_norm_threshold
        ≤ (opts.AdjustThresholdsAdaptively n w).gradient_norm_threshold ∧
    opts.cost_decrease_threshold
        ≤ (opts.AdjustThresholdsAdaptively n w).cost_decrease_threshold ∧
    opts.parameter_variation_threshold
        ≤ (opts.AdjustThresholdsAdaptively n w).parameter_variation_threshold := by
  unfold MapSolverOptions.AdjustThresholdsAdaptively
  by_cases h : (n : ℚ) * w < 1
  · rw [if_pos h]
    exact ⟨le_refl _, le_refl _, le_refl _⟩
  · rw [if_neg h]
    have h1 : 1 ≤ (n : ℚ) * w := not_lt.mp h
    exact ⟨le_mul_of_one_le_right hg.le h1,
           le_mul_of_one_le_right hc.le h1,
           le_mul_of_one_le_right hp.le h1⟩

/-- C8 witness: thresholds (1, 2, 3) with `n = 2`, `w = 3` do not shrink. -/
theorem adjustThresholdsAdaptively_never_shrinks_witness :
    ({ least_squares_solver := .CONJUGATE_GRADIENT_SOLVER
       use_numerical_differentiation := false
       numerical_differentiation_step := 0
       split_channels := false
       verbose := false
       gradient_norm_threshold := 1
       cost_decrease_threshold := 2
       parameter_variation_threshold := 3 :
         MapSolverOptions }.gradient_norm_threshold
        ≤ ({ least_squares_solver := .CONJUGATE_GRADIENT_SOLVER
             use_numerical_differentiation := false
             numerical_differentiation_step := 0
             split_channels := false
             verbose := false
             gradient_norm_threshold := 1
             cost_decrease_threshold := 2
             parameter_variation_threshold := 3 :
               MapSolverOptions }.AdjustThresholdsAdaptively 2 3).gradient_norm_threshold) ∧
    ({ least_squares_solver := .CONJUGATE_GRADIENT_SOLVER
       use_numerical_differentiation := false
       numerical_differentiation_step := 0
       split_channels := false
       verbose := false
       gradient_norm_threshold := 1
       cost_decrease_threshold := 2
       parameter_variation_threshold := 3 :
         MapSolverOptions }.cost_decrease_threshold
        ≤ ({ least_squares_solver := .CONJUGATE_GRADIENT_SOLVER
             use_numerical_differentiation := false
             numerical_differentiation_step := 0
             split_channels := false
             verbose := false
             gradient_norm_threshold := 1
             cost_decrease_threshold := 2
             parameter_variation_threshold := 3 :
               MapSolverOptions }.AdjustThresholdsAdaptively 2 3).cost_decrease_threshold) ∧
    ({ least_squares_solver := .CONJUGATE_GRADIENT_SOLVER
       use_numerical_differentiation := false
       numerical_differentiation_step := 0
       split_channels := false
       verbose := false
       gradient_norm_threshold := 1
       cost_decrease_threshold := 2
       parameter_variation_threshold := 3 :
         MapSolverOptions }.parameter_variation_threshold
        ≤ ({ least_squares_solver := .CONJUGATE_GRADIENT_SOLVER
             use_numerical_differentiation := false
             numerical_differentiation_step := 0
             split_channels := false
             verbose := false
             gradient_norm_threshold := 1
             cost_decrease_threshold := 2
             parameter_variation_threshold := 3 :
               MapSolverOptions }.AdjustThresholdsAdaptively 2 3).parameter_variation_threshold) :=
  adjustThresholdsAdaptively_never_shrinks _ 2 3
    (by norm_num) (by norm_num) (by norm_num) (by norm_num) (by norm_num)

/-- C9: `AdjustThresholdsAdaptively` is total (never signals an error) and
mutates at most the three threshold fields: the solver choice, the
differentiation mode, the numerical step, the channel-split flag and the
verbosity flag are unchanged for all inputs. -/
theorem adjustThresholdsAdaptively_frame (opts : MapSolverOptions)
    (n : ℤ) (w : ℚ) :
    (opts.AdjustThresholdsAdaptively n w).least_squares_solver
        = opts.least_squares_solver ∧
    (opts.AdjustThresholdsAdaptively n w).use_numerical_differentiation
        = opts.use_numerical_differentiation ∧
    (opts.AdjustThresholdsAdaptively n w).numerical_differentiation_step
        = opts.numerical_differentiation_step ∧
    (opts.AdjustThresholdsAdaptively n w).split_channels
        = opts.split_channels ∧
    (opts.AdjustThresholdsAdaptively n w).verbose = opts.verbose := by
  unfold MapSolverOptions.AdjustThresholdsAdaptively
  by_cases h : (n : ℚ) * w < 1
  · rw [if_pos h]
    exact ⟨rfl, rfl, rfl, rfl, rfl⟩
  · rw [if_neg h]
    exact ⟨rfl, rfl, rfl, rfl, rfl⟩

/-- C1: `GetNumDataPoints` returns `pixelCount × channelCount` whenever
that product is at most the maximum signed 32-bit integer, and fails
(fatally, modelled as `none`) whenever the product exceeds it. -/
theorem getNumDataPoints_spec (s : MapSolver) :
    (s.GetNumPixels * s.GetNumChannels ≤ INT32_MAX →
      s.GetNumDataPoints = some (s.GetNumPixels * s.GetNumChannels)) ∧
    (INT32_MAX < s.GetNumPixels * s.GetNumChannels →
      s.GetNumDataPoints = none) := by
  unfold MapSolver.GetNumDataPoints
  constructor
  · intro h
    rw [if_pos h]
  · intro h
    rw [if_neg (not_le.mpr h)]

/-- A solver state with a 100×100 high-resolution size and 3 channels. -/
def solverSmall : MapSolver :=
  { numChannels := 3, imageSize := (100, 100), observations := [],
    regularizers := [] }

/-- A solver state whose data-point count (65536 × 65536) exceeds the
maximum signed 32-bit integer. -/
def solverHuge : MapSolver :=
  { numChannels := 1, imageSize := (65536, 65536), observations := [],
    regularizers := [] }

/-- C1 witness: 100×100×3 = 30000 data points are returned; 65536×65536
data points make the call fail. -/
theorem getNumDataPoints_spec_witness :
    solverSmall.GetNumDataPoints = some 30000 ∧
    solverHuge.GetNumDataPoints = none :=
  ⟨(getNumDataPoints_spec solverSmall).1 (by decide),
   (getNumDataPoints_spec solverHuge).2 (by decide)⟩

/-- C5: constructing with an empty list of low-resolution images fails
(fatally, modelled as `none`). -/
theorem construct_empty_fails (imageModel : ImageModel) :
    MapSolver.construct imageModel [] = none := rfl

/-- C6: on a non-empty image list, construction fails if and only if some
image's channel count differs from the first image's channel count. -/
theorem construct_fails_iff_channel_mismatch (imageModel : ImageModel)
    (first : ImageData) (rest : List ImageData) :
    MapSolver.construct imageModel (first :: rest) = none ↔
      ∃ img ∈ first :: rest, img.numChannels ≠ first.numChannels := by
  simp only [MapSolver.construct]
  by_cases h : (rest.all fun img => img.numChannels == first.numChannels) = true
  · rw [if_pos h]
    simp only [List.all_eq_true, beq_iff_eq] at h
    constructor
    · intro hcontra
      exact absurd hcontra (by simp)
    · rintro ⟨img, hmem, hne⟩
      rcases List.mem_cons.mp hmem with heq | hmem
      · exact absurd (heq ▸ rfl) hne
      · exact absurd (h img hmem) hne
  · rw [if_neg h]
    simp only [List.all_eq_true, beq_iff_eq] at h
    push_neg at h
    obtain ⟨img, hmem, hne⟩ := h
    exact ⟨fun _ => ⟨img, List.mem_cons_of_mem _ hmem, hne⟩, fun _ => rfl⟩

/-- C7: `GetRegularizationParameterSum` returns the sum of all registered
weights, and 0 when none are registered (it is a pure query on the
state). -/
theorem getRegularizationParameterSum_spec (s : MapSolver) :
    s.GetRegularizationParameterSum = (s.regularizers.map Prod.snd).sum ∧
    (s.regularizers = [] → s.GetRegularizationParameterSum = 0) := by
  constructor
  · unfold MapSolver.GetRegularizationParameterSum
    rw [foldl_add_snd, zero_add]
  · intro h
    unfold MapSolver.GetRegularizationParameterSum
    rw [h]
    rfl

/-- A solver state with registered weights 1/10, 2/10 and 7/10. -/
def solverRegs : MapSolver :=
  { numChannels := 1, imageSize := (1, 1), observations := [],
    regularizers := [(⟨0⟩, 1 / 10), (⟨1⟩, 2 / 10), (⟨2⟩, 7 / 10)] }

/-- A solver state with no registered regularizers. -/
def solverNoRegs : MapSolver :=
  { numChannels := 1, imageSize := (1, 1), observations := [],
    regularizers := [] }

/-- C7 witness: weights {0.1, 0.2, 0.7} sum to 1; no registrations sum
to 0. -/
theorem getRegularizationParameterSum_spec_witness :
    solverRegs.GetRegularizationParameterSum = 1 ∧
    solverNoRegs.GetRegularizationParameterSum = 0 :=
  ⟨(getRegularizationParameterSum_spec solverRegs).1.trans (by norm_num [solverRegs]),
   (getRegularizationParameterSum_spec solverNoRegs).2 rfl⟩

/-- C10: `AddRegularizer` appends exactly the given (term, weight) pair —
removing nothing — and afterwards `GetRegularizationParameterSum` returns
the previous sum plus the new weight, for any weight including negative
ones. -/
theorem addRegularizer_adds_weight (s : MapSolver) (r : Regularizer)
    (w : ℚ) :
    (s.AddRegularizer r w).regularizers = s.regularizers ++ [(r, w)] ∧
    (s.AddRegularizer r w).GetRegularizationParameterSum
        = s.GetRegularizationParameterSum + w := by
  refine ⟨rfl, ?_⟩
  unfold MapSolver.AddRegularizer MapSolver.GetRegularizationParameterSum
  rw [foldl_add_snd, foldl_add_snd]
  simp

/-- C4: with a non-empty list of images sharing channel count `c` and size
(`w`, `h`), and a model scale `s ≥ 1`, construction succeeds, yields
`highResSize = (w·s, h·s)`, channel count `c`, and one Observation per
input in order, each the nearest-neighbor resampling of its input onto the
high-resolution size. -/
theorem construct_consistent_inputs (imageModel : ImageModel)
    (lowResImages : List ImageData) (w h c : Nat)
    (hne : lowResImages ≠ [])
    (hc : ∀ img ∈ lowResImages, img.numChannels = c)
    (hw : ∀ img ∈ lowResImages, img.width = w)
    (hh : ∀ img ∈ lowResImages, img.height = h)
    (_hs : 1 ≤ imageModel.GetDownsamplingScale) :
    ∃ solver,
      MapSolver.construct imageModel lowResImages = some solver ∧
      solver.imageSize = (w * imageModel.GetDownsamplingScale,
                          h * imageModel.GetDownsamplingScale) ∧
      solver.numChannels = c ∧
      solver.observations.length = lowResImages.length ∧
      solver.observations = lowResImages.map (fun img =>
        img.ResizeImage (w * imageModel.GetDownsamplingScale,
                         h * imageModel.GetDownsamplingScale)) := by
  cases lowResImages with
  | nil => exact absurd rfl hne
  | cons first rest =>
    have hfc : first.numChannels = c := hc first (List.mem_cons_self _ _)
    have hfw : first.width = w := hw first (List.mem_cons_self _ _)
    have hfh : first.height = h := hh first (List.mem_cons_self _ _)
    have hcond : (rest.all fun img => img.numChannels == first.numChannels)
        = true := by
      rw [List.all_eq_true]
      intro img hmem
      rw [beq_iff_eq, hc img (List.mem_cons_of_mem _ hmem), hfc]
    refine ⟨{ numChannels := first.numChannels,
              imageSize := (first.width * imageModel.GetDownsamplingScale,
                            first.height * imageModel.GetDownsamplingScale),
              observations := (first :: rest).map (fun img =>
                img.ResizeImage
                  (first.width * imageModel.GetDownsamplingScale,
                   first.height * imageModel.GetDownsamplingScale)),
              regularizers := [] }, ?_, ?_, ?_, ?_, ?_⟩
    · simp only [MapSolver.construct]
      rw [if_pos hcond]
    · show (first.width * imageModel.GetDownsamplingScale,
            first.height * imageModel.GetDownsamplingScale) = _
      rw [hfw, hfh]
    · exact hfc
    · simp
    · show (first :: rest).map (fun img =>
          img.ResizeImage (first.width * imageModel.GetDownsamplingScale,
                           first.height * imageModel.GetDownsamplingScale)) = _
      rw [hfw, hfh]

/-- A forward model with scale factor 2. -/
def modelX2 : ImageModel := ⟨2⟩

/-- A 2×3 single-channel image with constant value 5. -/
def imgA : ImageData := ⟨2, 3, 1, fun _ _ _ => 5⟩

/-- A 2×3 single-channel image with constant value 7. -/
def imgB : ImageData := ⟨2, 3, 1, fun _ _ _ => 7⟩

/-- C4 witness: two 2×3 single-channel images with scale 2 yield a 4×6
single-channel solver with two nearest-neighbor-resampled observations in
input order. -/
theorem construct_consistent_inputs_witness :
    ∃ solver,
      MapSolver.construct modelX2 [imgA, imgB] = some solver ∧
      solver.imageSize = (2 * modelX2.GetDownsamplingScale,
                          3 * modelX2.GetDownsamplingScale) ∧
      solver.numChannels = 1 ∧
      solver.observations.length = [imgA, imgB].length ∧
      solver.observations = [imgA, imgB].map (fun img =>
        img.ResizeImage (2 * modelX2.GetDownsamplingScale,
                         3 * modelX2.GetDownsamplingScale)) :=
  construct_consistent_inputs modelX2 [imgA, imgB] 2 3 1
    (List.cons_ne_nil _ _) (by decide) (by decide) (by decide) (by decide)

end SuperResolution
